import Mathlib

/-!
Shallow embedding of the DataWeb frontend chat subsystem.

Source files embedded here:
* `src/frontend/components/statsCards.js` — the `ChatPanel` class:
  `_sendMessage`, `setFileId`, `_appendAIMessage` (classifier and renderers),
  `_appendUserMessage`, `_appendErrorMsg`, `_escapeHtml`;
* `src/frontend/services/api.js` — the `post` and `get` gateway helpers.

JavaScript values that can appear inside query-result rows are modelled by
`JsVal` (numbers as exact rationals — every JS number of interest here is an
exactly representable decimal), JS objects by insertion-ordered association
lists (`objInsert`/`objLookup`/`objModify`/`objValues`, matching the JS
object semantics for non-index string keys), and `null`/`undefined` inputs
by `Option`.
-/

set_option linter.unusedVariables false

namespace DataWeb

/-- JavaScript value stored in a query-result row: a number (modelled as an
exact rational), a string, or `null`. -/
inductive JsVal where
  | num (q : ℚ)
  | str (s : String)
  | null
deriving DecidableEq

/-- One result row: a JS object, i.e. an insertion-ordered map from column
name to value. -/
def Row : Type := List (String × JsVal)

instance : DecidableEq Row := by
  unfold Row
  infer_instance

/-- Payload of a successful `/query` response, as consumed by
`ChatPanel._appendAIMessage` and `_sendMessage`.  Fields that the code
tests for truthiness (`sql`, `route`, `chart_type`) are `Option`s; an empty
string is also falsy in JS and is handled at each use site. -/
structure QueryResult where
  session_id : String
  explanation : String
  sql : Option String
  route : Option String
  chart_type : Option String
  columns : List String
  rows : List Row
deriving DecidableEq

-- ── JS object as an insertion-ordered association list ─────────────────────

/-- Assignment `m[k] = v` on a JS object: replaces the value in place if the
key exists, otherwise appends the new entry (JS objects keep insertion order
for non-index string keys). -/
def objInsert {α : Type} : List (String × α) → String → α → List (String × α)
  | [], k, v => [(k, v)]
  | (k', v') :: rest, k, v =>
    if k' = k then (k, v) :: rest else (k', v') :: objInsert rest k v

/-- Property read `m[k]` on a JS object (`undefined` becomes `none`). -/
def objLookup {α : Type} : List (String × α) → String → Option α
  | [], _ => none
  | (k', v') :: rest, k => if k' = k then some v' else objLookup rest k

/-- In-place mutation of the value stored under `k` (models JS statements of
the form `m[k].messages.push(x)`). -/
def objModify {α : Type} : List (String × α) → String → (α → α) → List (String × α)
  | [], _, _ => []
  | (k', v') :: rest, k, f =>
    if k' = k then (k', f v') :: rest else (k', v') :: objModify rest k f

/-- `Object.values(m)` in insertion order. -/
def objValues {α : Type} (m : List (String × α)) : List α := m.map (fun p => p.2)

-- ── _escapeHtml ────────────────────────────────────────────────────────────

/-- Replacement of every occurrence of the character `c` by the string `rep`
(models `String.prototype.replace` with a global single-character regex). -/
def replaceChar (c : Char) (rep : List Char) : List Char → List Char
  | [] => []
  | x :: xs => (if x = c then rep else [x]) ++ replaceChar c rep xs

/-- `ChatPanel._escapeHtml(str)`: `String(str ?? '')` followed by the four
chained global replacements for `&`, `<`, `>` and `"`.  A `null`/`undefined`
argument is `none` and yields the empty string. -/
def escapeHtml (v : Option String) : String :=
  let s0 := (v.getD "").data
  let s1 := replaceChar '&' ("&amp;".data) s0
  let s2 := replaceChar '<' ("&lt;".data) s1
  let s3 := replaceChar '>' ("&gt;".data) s2
  let s4 := replaceChar '"' ("&quot;".data) s3
  String.mk s4

-- ── Response classifier (head of _appendAIMessage) ─────────────────────────

/-- Sentinel test from `_appendAIMessage`:
`result.rows?.length === 1 && result.columns?.[0] === 'error'`. -/
def isErrorRow (r : QueryResult) : Bool :=
  r.rows.length == 1 && r.columns.head? == some "error"

/-- `hasDataRows = result.rows?.length > 0 && !isErrorRow`. -/
def hasDataRows (r : QueryResult) : Bool :=
  decide (0 < r.rows.length) && !isErrorRow r

/-- `hasChart = hasDataRows && result.chart_type &&
!['none','table','kpi'].includes(result.chart_type) && result.columns?.length >= 2`
(an absent or empty `chart_type` is falsy). -/
def hasChart (r : QueryResult) : Bool :=
  hasDataRows r &&
    (match r.chart_type with
     | some ct => !(ct == "") && !(["none", "table", "kpi"].contains ct)
     | none => false) &&
    decide (2 ≤ r.columns.length)

/-- `isKPI = hasDataRows && result.chart_type === 'kpi'`. -/
def isKPI (r : QueryResult) : Bool :=
  hasDataRows r && r.chart_type == some "kpi"

/-- `hasTable = hasDataRows && result.chart_type === 'table'`. -/
def hasTable (r : QueryResult) : Bool :=
  hasDataRows r && r.chart_type == some "table"

-- ── Number formatting used by the KPI cards ────────────────────────────────

/-- Decimal digit as a character. -/
def digitChar : Nat → Char
  | 0 => '0'
  | 1 => '1'
  | 2 => '2'
  | 3 => '3'
  | 4 => '4'
  | 5 => '5'
  | 6 => '6'
  | 7 => '7'
  | 8 => '8'
  | _ => '9'

/-- Decimal digits of a natural number, most significant first, with fuel
(`n + 1` is always enough fuel for `n`). -/
def natDigitsAux : Nat → Nat → List Char
  | 0, _ => []
  | fuel + 1, n =>
    if n < 10 then [digitChar n]
    else natDigitsAux fuel (n / 10) ++ [digitChar (n % 10)]

/-- Decimal string of a natural number (the JS default conversion). -/
def natToString (n : Nat) : String := String.mk (natDigitsAux (n + 1) n)

/-- Decimal string of an integer (the JS default conversion). -/
def intToString (n : ℤ) : String :=
  (if n < 0 then "-" else "") ++ natToString n.natAbs

/-- Insertion of a thousands separator after every third digit of a reversed
digit list (the grouping performed by `Number.prototype.toLocaleString` in
the default locale). -/
def commaGroupRev : List Char → List Char
  | a :: b :: c :: rest =>
    match rest with
    | [] => [a, b, c]
    | _ :: _ => a :: b :: c :: ',' :: commaGroupRev rest
  | l => l

/-- `n.toLocaleString()` for an integral JS number: decimal digits grouped in
threes with commas, preceded by a sign for negative values. -/
def jsToLocaleString (n : ℤ) : String :=
  (if n < 0 then "-" else "") ++
    String.mk ((commaGroupRev (natToString n.natAbs).data.reverse).reverse)

/-- `x.toFixed(2)`: per the ECMAScript algorithm the sign is taken first,
then the closest integer `n` to `100·|x|` is chosen (ties pick the larger
`n`, i.e. `n = ⌊100·|x| + 1/2⌋`) and printed with two fractional digits.
For `|x| = a/b` that floor equals `(200·a + b) / (2·b)` in natural-number
division, which is how it is computed here. -/
def jsToFixed2 (q : ℚ) : String :=
  let sign := if q.num < 0 then "-" else ""
  let n := (200 * q.num.natAbs + q.den) / (2 * q.den)
  sign ++ natToString (n / 100) ++ "." ++
    (if n % 100 < 10 then "0" else "") ++ natToString (n % 100)

/-- Value formatting in the KPI branch of `_appendAIMessage`:
`typeof val === 'number' ? (Number.isInteger(val) ? val.toLocaleString() : val.toFixed(2)) : val`;
a non-number is interpolated as-is (`null` prints as the string `null`). -/
def fmtKpiVal : JsVal → String
  | JsVal.num q => if q.den = 1 then jsToLocaleString q.num else jsToFixed2 q
  | JsVal.str s => s
  | JsVal.null => "null"

/-- Global replacement `key.replace(/_/g, ' ')` used for KPI labels. -/
def underscoresToSpaces (s : String) : String :=
  String.mk (s.data.map (fun ch => if ch = '_' then ' ' else ch))

/-- One KPI card of `_appendAIMessage`, for one `[key, val]` entry of the
first row. -/
def kpiCardHtml (key : String) (fmtVal : String) : String :=
  "<div style=\"margin-top:10px;padding:14px 18px;background:var(--clay-lavender);border-radius:var(--radius-md);box-shadow:4px 4px 0 var(--shadow-lavender);\">" ++
    "<div style=\"font-size:0.7rem;font-weight:800;text-transform:uppercase;letter-spacing:0.6px;color:var(--text-mid);\">" ++
    underscoresToSpaces key ++ "</div>" ++
    "<div style=\"font-size:2rem;font-weight:900;color:var(--text-dark);line-height:1.1;\">" ++
    fmtVal ++ "</div></div>"

/-- The list of KPI cards: one per entry of `Object.entries(result.rows[0])`,
produced only when `isKPI && result.rows[0]` holds. -/
def kpiCards (r : QueryResult) : List String :=
  if isKPI r then
    match r.rows with
    | [] => []
    | row0 :: _ => row0.map (fun kv => kpiCardHtml kv.1 (fmtKpiVal kv.2))
  else []

/-- `kpiHtml` of `_appendAIMessage` (`.join('')` over the cards; the empty
string when the KPI branch is not taken). -/
def kpiHtml (r : QueryResult) : String := String.join (kpiCards r)

-- ── Mini table renderer ────────────────────────────────────────────────────

/-- Digits of the fractional remainder `r/b` (with `r < b`) printed by long
division, with fuel (every JS number is a dyadic rational, whose expansion
terminates well within the fuel used at the call site). -/
def fracDigits : Nat → Nat → Nat → List Char
  | 0, _, _ => []
  | fuel + 1, r, b =>
    if r = 0 then []
    else digitChar (r * 10 / b) :: fracDigits fuel (r * 10 % b) b

/-- Default string conversion of a JS number, as performed by template
interpolation (exact for the integral and terminating-decimal values that
occur in result rows). -/
def jsNumToString (q : ℚ) : String :=
  if q.den = 1 then intToString q.num
  else
    (if q.num < 0 then "-" else "") ++ natToString (q.num.natAbs / q.den) ++ "." ++
      String.mk (fracDigits 40 (q.num.natAbs % q.den) q.den)

/-- Cell text `${r[c] ?? '—'}`: a missing or `null` value renders as the em
dash, anything else via default string conversion. -/
def jsValCell : Option JsVal → String
  | none => "—"
  | some JsVal.null => "—"
  | some (JsVal.num q) => jsNumToString q
  | some (JsVal.str s) => s

/-- One `<td>` of the mini table. -/
def tableCellHtml (r : Row) (c : String) : String :=
  "<td style=\"padding:7px 10px;font-weight:600;color:var(--text-dark);\">" ++
    jsValCell (objLookup r c) ++ "</td>"

/-- One `<tr>` of the mini table body. -/
def tableRowHtml (cols : List String) (r : Row) : String :=
  "<tr style=\"border-bottom:1px solid hsl(50,20%,90%);\">" ++
    String.join (cols.map (tableCellHtml r)) ++ "</tr>"

/-- The rendered body rows: `result.rows.slice(0, 10).map(...)`. -/
def tableRowsHtml (cols : List String) (rows : List Row) : List String :=
  (rows.take 10).map (tableRowHtml cols)

/-- The header `<tr>` of the mini table. -/
def tableHeaderHtml (cols : List String) : String :=
  "<tr style=\"background:hsl(50,20%,92%);\">" ++
    String.join (cols.map (fun c =>
      "<th style=\"padding:8px 10px;text-align:left;font-weight:800;font-size:0.7rem;text-transform:uppercase;letter-spacing:0.5px;color:var(--text-mid);\">" ++
        c ++ "</th>")) ++ "</tr>"

/-- The overflow suffix:
`result.rows.length > 10 ? '<div ...>+' + (result.rows.length - 10) + ' more rows</div>' : ''`. -/
def tableSuffixHtml (rows : List Row) : String :=
  if 10 < rows.length then
    "<div style=\"padding:6px 10px;font-size:0.75rem;color:var(--text-mid);font-weight:700;background:hsl(50,20%,93%);\">+" ++
      natToString (rows.length - 10) ++ " more rows</div>"
  else ""

/-- Assembly of the mini-table markup from header, body rows and suffix. -/
def tableWrapperHtml (header : String) (bodyRows : List String) (suffix : String) : String :=
  "<div style=\"margin-top:10px;border-radius:var(--radius-sm);overflow:hidden;border:2px solid hsl(50,20%,88%);\">" ++
    "<table style=\"width:100%;border-collapse:collapse;font-size:0.8rem;\"><thead>" ++
    header ++ "</thead><tbody>" ++ String.join bodyRows ++ "</tbody></table>" ++
    suffix ++ "</div>"

/-- `miniTableHtml` of `_appendAIMessage`: rendered only when
`hasTable && result.rows?.length > 0`, otherwise the empty string. -/
def miniTableHtml (r : QueryResult) : String :=
  if hasTable r && decide (0 < r.rows.length) then
    tableWrapperHtml (tableHeaderHtml r.columns) (tableRowsHtml r.columns r.rows)
      (tableSuffixHtml r.rows)
  else ""

-- ── Chat session state (ChatPanel fields and _sendMessage) ─────────────────

/-- One chat message: the `role: 'user'` / `role: 'ai'` tagged records pushed
into `session.messages`. -/
inductive Message where
  | user (text : String)
  | ai (result : QueryResult)
deriving DecidableEq

/-- One session record
`{ id, file_id, title, messages }` as stored in `this.sessions`. -/
structure Session where
  id : String
  file_id : Option String
  title : String
  messages : List Message
deriving DecidableEq

/-- The mutable `ChatPanel` fields that `_sendMessage` and `setFileId`
touch: the session map (a JS object), `currentSessionId`, `file_id` and the
single-flight `isLoading` flag. -/
structure ChatState where
  sessions : List (String × Session)
  currentSessionId : Option String
  file_id : Option String
  isLoading : Bool
deriving DecidableEq

/-- An entry appended to the visible chat surface during one `_sendMessage`
call: the optimistic user bubble, an inline error bubble, or the rendered AI
response. -/
inductive DisplayEntry where
  | userMsg (text : String)
  | errorMsg (text : String)
  | aiMsg (result : QueryResult)
deriving DecidableEq

/-- Test distinguishing the inline error bubbles (`_appendErrorMsg`) from the
other chat-surface entries. -/
def DisplayEntry.isError : DisplayEntry → Bool
  | DisplayEntry.errorMsg _ => true
  | _ => false

/-- The inline notice appended by `_sendMessage` when `this.file_id` is
unset. -/
def noFileMsg : String :=
  "⚠️ No file selected. Please select a file from the sidebar or upload a new one first."

/-- `String.prototype.includes` as a Bool. -/
def jsIncludes (s sub : String) : Bool := decide (sub.data <:+: s.data)

/-- The error classification of the `catch` branch of `_sendMessage`. -/
def classifyErr (msg : String) : String :=
  if jsIncludes msg "fetch" || jsIncludes msg "NetworkError" || jsIncludes msg "Failed to fetch" then
    "⚠️ Cannot reach the backend. Make sure `bash start_backend.sh` is running."
  else if jsIncludes msg "404" || jsIncludes msg "dataset" then
    "⚠️ No dataset loaded yet. Go to Upload CSV and drag your CSV in first."
  else "⚠️ " ++ msg

/-- Session title used when `_sendMessage` creates a new session record:
`question.substring(0, 30) + (question.length > 30 ? '...' : '')`. -/
def truncTitle (question : String) : String :=
  String.mk (question.data.take 30) ++ (if 30 < question.length then "..." else "")

/-- Outcome of the awaited `api.query(...)` call: the parsed result or a
thrown error message. -/
inductive QueryOutcome where
  | ok (r : QueryResult)
  | err (msg : String)
deriving DecidableEq

/-- Push of `{ role: 'user', text: question }` onto a session's message
list. -/
def pushUserMsg (question : String) (s : Session) : Session :=
  { s with messages := s.messages ++ [Message.user question] }

/-- Push of `{ role: 'ai', result }` onto a session's message list. -/
def pushAIMsg (r : QueryResult) (s : Session) : Session :=
  { s with messages := s.messages ++ [Message.ai r] }

/-- The session mutations `_sendMessage` performs before awaiting the
backend: synthesize a placeholder if `currentSessionId` is set but absent
from the map, then optimistically push the user message — both only when a
current session id exists. -/
def sendPrepare (st : ChatState) (question : String) : ChatState :=
  match st.currentSessionId with
  | none => st
  | some cid =>
    let st1 :=
      match objLookup st.sessions cid with
      | some _ => st
      | none =>
        let placeholder : Session :=
          { id := cid, file_id := st.file_id, title := question, messages := [] }
        { st with sessions := objInsert st.sessions cid placeholder }
    { st1 with sessions := objModify st1.sessions cid (pushUserMsg question) }

/-- The session mutations `_sendMessage` performs on a successful response:
create the session under `result.session_id` if absent (pushing the deferred
user message exactly when the request carried no session id), make it
current, and append the AI message. -/
def sendResolve (st : ChatState) (question : String) (r : QueryResult) : ChatState :=
  let nid := r.session_id
  let st1 :=
    match objLookup st.sessions nid with
    | some _ => st
    | none =>
      let deferred :=
        match st.currentSessionId with
        | none => [Message.user question]
        | some _ => []
      let created : Session :=
        { id := nid, file_id := st.file_id, title := truncTitle question,
          messages := deferred }
      { st with sessions := objInsert st.sessions nid created }
  { st1 with
    currentSessionId := some nid,
    sessions := objModify st1.sessions nid (pushAIMsg r) }

/-- `ChatPanel._sendMessage` for one already-trimmed input string.  The
backend's behaviour is passed in as `outcome`.  Returns the new state, the
entries appended to the chat surface, and whether the backend was contacted
(the display list omits the transient typing indicator, which is always
removed again before the call returns). -/
def sendMessage (st : ChatState) (question : String) (outcome : QueryOutcome) :
    ChatState × List DisplayEntry × Bool :=
  if st.isLoading then (st, [], false)
  else if question = "" then (st, [], false)
  else
    match st.file_id with
    | none => (st, [DisplayEntry.userMsg question, DisplayEntry.errorMsg noFileMsg], false)
    | some _ =>
      let st1 := sendPrepare st question
      match outcome with
      | QueryOutcome.err m =>
        (st1, [DisplayEntry.userMsg question, DisplayEntry.errorMsg (classifyErr m)], true)
      | QueryOutcome.ok r =>
        (sendResolve st1 question r,
          [DisplayEntry.userMsg question, DisplayEntry.aiMsg r], true)

-- ── setFileId ──────────────────────────────────────────────────────────────

/-- Outcome of the awaited `api.getSessions(file_id)` call. -/
inductive FetchOutcome where
  | ok (fetched : List Session)
  | err
deriving DecidableEq

/-- `ChatPanel.setFileId(file_id)`: bind the file, replace `this.sessions`
with the fetched sessions keyed by id (an empty map when the fetch throws),
then select the last fetched session whose `file_id` matches, or `null`. -/
def setFileId (st : ChatState) (fid : String) (outcome : FetchOutcome) : ChatState :=
  let sessions :=
    match outcome with
    | FetchOutcome.ok fetched =>
      fetched.foldl (fun m s => objInsert m s.id s) []
    | FetchOutcome.err => []
  let fileSessions := (objValues sessions).filter (fun s => s.file_id == some fid)
  { st with
    file_id := some fid,
    sessions := sessions,
    currentSessionId := (fileSessions.getLast?).map (fun s => s.id) }

-- ── Backend gateway helpers (src/frontend/services/api.js) ─────────────────

/-- The JSON fields of a backend response body that `post`/`get` inspect.
Absent fields are `none`; JS truthiness additionally treats the empty string
as absent. -/
structure JsonBody where
  detail : Option String
  error : Option String
  explanation : Option String
deriving DecidableEq

/-- JS truthiness of an optional string field. -/
def truthyStr : Option String → Bool
  | some s => !(s == "")
  | none => false

/-- `a || b` for an optional string against a fallback. -/
def jsOr (a : Option String) (b : String) : String :=
  match a with
  | some s => if s = "" then b else s
  | none => b

/-- `Response.ok`: status in the inclusive range 200–299. -/
def resOk (status : Nat) : Bool := decide (200 ≤ status) && decide (status ≤ 299)

/-- Result of a gateway helper: the parsed body, or a thrown `Error` whose
message is recorded. -/
inductive FetchResult where
  | ok (body : JsonBody)
  | thrown (msg : String)
deriving DecidableEq

/-- `post` from `api.js`: return the body on HTTP 422 with a truthy
`explanation`; otherwise throw on non-success with
`json.detail || json.error || 'HTTP ' + status`; otherwise return the body. -/
def post (status : Nat) (json : JsonBody) : FetchResult :=
  if status == 422 && truthyStr json.explanation then FetchResult.ok json
  else if !resOk status then
    FetchResult.thrown (jsOr json.detail (jsOr json.error ("HTTP " ++ natToString status)))
  else FetchResult.ok json

/-- `get` from `api.js`: throw on non-success with
`json.detail || 'HTTP ' + status`; otherwise return the body. -/
def get (status : Nat) (json : JsonBody) : FetchResult :=
  if !resOk status then
    FetchResult.thrown (jsOr json.detail ("HTTP " ++ natToString status))
  else FetchResult.ok json

-- ── Remaining pieces of the AI bubble (_appendAIMessage) ───────────────────

/-- Route badge selection: `result.route || 'sql'` looked up in `badgeInfo`,
falling back to the SQL badge for unknown routes.  Returns (label, color). -/
def badgeInfo (route : Option String) : String × String :=
  match route with
  | some "general" =>
    ("<i class=\"ph-fill ph-brain\" style=\"vertical-align:-2px; margin-right:4px;\"></i> General answer", "#ffb3ba")
  | some "compute" =>
    ("<i class=\"ph-fill ph-calculator\" style=\"vertical-align:-2px; margin-right:4px;\"></i> Compute + SQL", "#ffdfba")
  | _ =>
    ("<i class=\"ph-fill ph-database\" style=\"vertical-align:-2px; margin-right:4px;\"></i> SQL query", "#ffb3ba")

/-- The chart slot: a canvas container exactly when `hasChart` holds. -/
def chartContainerHtml (r : QueryResult) (chartId : String) : String :=
  if hasChart r then
    "<div class=\"chart-container\"><canvas id=\"" ++ chartId ++ "\" height=\"220\"></canvas></div>"
  else ""

/-- The collapsible SQL viewer, attached whenever `result.sql` is truthy. -/
def sqlViewerHtml (r : QueryResult) (msgId : String) : String :=
  match r.sql with
  | some s =>
    if s = "" then ""
    else
      "<div class=\"sql-viewer\"><button class=\"sql-toggle\" data-target=\"sql-" ++ msgId ++
        "\"><i class=\"ph ph-code\"></i> &nbsp;View Generated SQL &nbsp;▾</button><pre class=\"sql-code\" id=\"sql-" ++
        msgId ++ "\">" ++ escapeHtml (some s) ++ "</pre></div>"
  | none => ""

/-- The explanation line: `_escapeHtml(result.explanation || 'Here are the results.')`. -/
def explanationHtml (r : QueryResult) : String :=
  "<div>" ++ escapeHtml (some (if r.explanation = "" then "Here are the results." else r.explanation)) ++ "</div>"

/-- The badge line of the AI bubble. -/
def badgeHtml (r : QueryResult) : String :=
  "<div style=\"font-size:0.68rem;font-weight:800;color:#555;margin-bottom:8px;padding:2px 10px;background:" ++
    (badgeInfo r.route).2 ++ "44;border-radius:999px;display:inline-block;\">" ++
    (badgeInfo r.route).1 ++ "</div>"

/-- Body of the AI message bubble assembled by `_appendAIMessage`: badge,
escaped explanation, KPI cards, chart container, mini table and SQL viewer,
in that order. -/
def aiBubbleHtml (r : QueryResult) (msgId chartId : String) : String :=
  "<div class=\"msg-bubble\" id=\"" ++ msgId ++ "\">" ++
    badgeHtml r ++ explanationHtml r ++ kpiHtml r ++
    chartContainerHtml r chartId ++ miniTableHtml r ++ sqlViewerHtml r msgId ++ "</div>"

/-- The user bubble appended by `_appendUserMessage`. -/
def userBubbleHtml (text : String) : String :=
  "<div class=\"msg-avatar\"><i class=\"ph-fill ph-user\"></i></div><div class=\"msg-bubble\">" ++
    escapeHtml (some text) ++ "</div>"

/-- The dropdown option rendered for one session by `_updateSessionDropdown`
(with the `selected` attribute when the session is current). -/
def sessionOptionHtml (s : Session) (current : Option String) : String :=
  "<option value=\"" ++ s.id ++ "\" " ++
    (if current == some s.id then "selected" else "") ++ ">" ++
    escapeHtml (some s.title) ++ "</option>"

/-- Per-character characterisation of the four chained replacements of
`_escapeHtml`: each special character is replaced by its HTML entity, every
other character passes through.  Used to state that the chained
`String.prototype.replace` calls amount to exactly this substitution. -/
def entitySubst (c : Char) : List Char :=
  if c = '&' then "&amp;".data
  else if c = '<' then "&lt;".data
  else if c = '>' then "&gt;".data
  else if c = '"' then "&quot;".data
  else [c]

-- ── Concrete fixtures for the closed witness and counterexample theorems ───

/-- Fixture: a chat panel with no sessions and a given bound file. -/
def emptyChat (fid : Option String) : ChatState :=
  { sessions := [], currentSessionId := none, file_id := fid, isLoading := false }

/-- Fixture: a minimal successful query result with a given session id. -/
def plainResult (sid : String) : QueryResult :=
  { session_id := sid, explanation := "done", sql := none, route := none,
    chart_type := none, columns := [], rows := [] }

/-- Fixture: an existing session under id `A` for file `f1`. -/
def sessionA : Session :=
  { id := "A", file_id := some "f1", title := "earlier", messages := [] }

/-- Fixture: a chat continuing session `A` on file `f1`. -/
def continuingChat : ChatState :=
  { sessions := [("A", sessionA)], currentSessionId := some "A",
    file_id := some "f1", isLoading := false }

/-- Fixture: a KPI result whose first row holds the spec's two example
values (1234.5 and 1200). -/
def kpiResult : QueryResult :=
  { session_id := "S1", explanation := "done", sql := none, route := none,
    chart_type := some "kpi", columns := ["revenue", "count"],
    rows := [[("revenue", JsVal.num (mkRat 2469 2)), ("count", JsVal.num (1200 : ℚ))]] }

/-- Fixture: a table result with 15 data rows. -/
def tableResult15 : QueryResult :=
  { session_id := "S1", explanation := "done", sql := none, route := none,
    chart_type := some "table", columns := ["v"],
    rows := (List.range 15).map (fun i => [("v", JsVal.num (i : ℚ))]) }

/-- Fixture: a single-sentinel-row result tagged with a bar chart type. -/
def errorRowResult : QueryResult :=
  { session_id := "S1", explanation := "No such column", sql := some "SELECT x",
    route := some "sql", chart_type := some "bar", columns := ["error"],
    rows := [[("error", JsVal.str "Column not found")]] }

/-- Fixture: persisted sessions for two files, in creation order (witnessed
by the strictly growing title lengths). -/
def fetchedSessions : List Session :=
  [{ id := "A", file_id := some "f1", title := "a", messages := [] },
   { id := "B", file_id := some "f2", title := "bb", messages := [] },
   { id := "C", file_id := some "f1", title := "ccc", messages := [] }]

/-- Fixture: a degraded 422 response body carrying an explanation. -/
def degradedBody : JsonBody :=
  { detail := none, error := none, explanation := some "I could not run that query." }

/-- Fixture: a plain failing response body. -/
def failedBody : JsonBody :=
  { detail := some "Table not found", error := none, explanation := none }

-- ── Helper lemmas on the JS-object operations ──────────────────────────────

theorem objLookup_objInsert_self {α : Type} (m : List (String × α)) (k : String) (v : α) :
    objLookup (objInsert m k v) k = some v := by
  induction m with
  | nil => simp [objInsert, objLookup]
  | cons p rest ih =>
    obtain ⟨k', v'⟩ := p
    by_cases h : k' = k
    · simp [objInsert, objLookup, h]
    · simp [objInsert, objLookup, h, ih]

theorem objLookup_objInsert_ne {α : Type} (m : List (String × α)) (k k'' : String) (v : α)
    (h : k'' ≠ k) : objLookup (objInsert m k v) k'' = objLookup m k'' := by
  induction m with
  | nil => simp [objInsert, objLookup, Ne.symm h]
  | cons p rest ih =>
    obtain ⟨k', v'⟩ := p
    by_cases hk : k' = k
    · subst hk
      simp [objInsert, objLookup, Ne.symm h]
    · simp only [objInsert, if_neg hk]
      by_cases hq : k' = k''
      · simp [objLookup, hq]
      · simp [objLookup, hq, ih]

theorem objLookup_objModify_self {α : Type} (m : List (String × α)) (k : String) (f : α → α) :
    objLookup (objModify m k f) k = (objLookup m k).map f := by
  induction m with
  | nil => simp [objModify, objLookup]
  | cons p rest ih =>
    obtain ⟨k', v'⟩ := p
    by_cases h : k' = k
    · simp [objModify, objLookup, h]
    · simp [objModify, objLookup, h, ih]

theorem objLookup_objModify_ne {α : Type} (m : List (String × α)) (k k'' : String) (f : α → α)
    (h : k'' ≠ k) : objLookup (objModify m k f) k'' = objLookup m k'' := by
  induction m with
  | nil => simp [objModify, objLookup]
  | cons p rest ih =>
    obtain ⟨k', v'⟩ := p
    by_cases hk : k' = k
    · subst hk
      simp [objModify, objLookup, Ne.symm h]
    · simp only [objModify, if_neg hk]
      by_cases hq : k' = k''
      · simp [objLookup, hq]
      · simp [objLookup, hq, ih]

theorem objModify_objInsert {α : Type} (m : List (String × α)) (k : String) (v : α) (f : α → α) :
    objModify (objInsert m k v) k f = objInsert m k (f v) := by
  induction m with
  | nil => simp [objInsert, objModify]
  | cons p rest ih =>
    obtain ⟨k', v'⟩ := p
    by_cases h : k' = k
    · simp [objInsert, objModify, h]
    · simp [objInsert, objModify, h, ih]

-- ── Helper lemmas on _sendMessage ──────────────────────────────────────────

/-- Unfolding of a guarded, successful `_sendMessage` call into its prepare
and resolve phases. -/
theorem sendMessage_ok (st : ChatState) (q : String) (r : QueryResult) (fid : String)
    (hld : st.isLoading = false) (hq : q ≠ "") (hf : st.file_id = some fid) :
    sendMessage st q (QueryOutcome.ok r) =
      (sendResolve (sendPrepare st q) q r,
        [DisplayEntry.userMsg q, DisplayEntry.aiMsg r], true) := by
  simp [sendMessage, hld, hq, hf]

/-- A brand-new chat (no current session id) leaves the state untouched
before the response arrives. -/
theorem sendPrepare_new_chat (st : ChatState) (q : String)
    (hcur : st.currentSessionId = none) : sendPrepare st q = st := by
  simp [sendPrepare, hcur]

/-- Complete characterisation of a successful send from a brand-new chat
whose response carries a fresh session id. -/
theorem sendMessage_new_chat (st : ChatState) (q : String) (r : QueryResult) (fid : String)
    (hld : st.isLoading = false) (hq : q ≠ "") (hf : st.file_id = some fid)
    (hcur : st.currentSessionId = none)
    (hfresh : objLookup st.sessions r.session_id = none) :
    sendMessage st q (QueryOutcome.ok r) =
      ({ sessions := objInsert st.sessions r.session_id
           { id := r.session_id, file_id := some fid, title := truncTitle q,
             messages := [Message.user q, Message.ai r] },
         currentSessionId := some r.session_id,
         file_id := some fid,
         isLoading := false },
       [DisplayEntry.userMsg q, DisplayEntry.aiMsg r], true) := by
  rw [sendMessage_ok st q r fid hld hq hf, sendPrepare_new_chat st q hcur]
  simp only [sendResolve, hfresh, hcur]
  rw [objModify_objInsert]
  cases st with
  | mk sessions currentSessionId file_id isLoading =>
    simp only at hld hf
    subst hld hf
    rfl

theorem objModify_objModify {α : Type} (m : List (String × α)) (k : String) (f g : α → α) :
    objModify (objModify m k f) k g = objModify m k (fun v => g (f v)) := by
  induction m with
  | nil => simp [objModify]
  | cons p rest ih =>
    obtain ⟨k', v'⟩ := p
    by_cases h : k' = k
    · simp [objModify, h]
    · simp [objModify, h, ih]

-- ── Claim theorems ─────────────────────────────────────────────────────────

/-- C2: with no current session and an active file bound, `_sendMessage`
pushes nothing into any session before the backend responds; on a successful
response carrying a session id absent from the local map, a new session
record is created under that id with the active file id, holding the
deferred user message followed by exactly one AI message, and
`currentSessionId` becomes the server-assigned id. -/
theorem send_new_chat_deferred (st : ChatState) (q : String) (r : QueryResult) (fid : String)
    (hld : st.isLoading = false) (hq : q ≠ "") (hf : st.file_id = some fid)
    (hcur : st.currentSessionId = none)
    (hfresh : objLookup st.sessions r.session_id = none) :
    sendPrepare st q = st ∧
    (sendMessage st q (QueryOutcome.ok r)).1.sessions =
      objInsert st.sessions r.session_id
        { id := r.session_id, file_id := some fid, title := truncTitle q,
          messages := [Message.user q, Message.ai r] } ∧
    (sendMessage st q (QueryOutcome.ok r)).1.currentSessionId = some r.session_id := by
  refine ⟨sendPrepare_new_chat st q hcur, ?_, ?_⟩ <;>
    rw [sendMessage_new_chat st q r fid hld hq hf hcur hfresh]

/-- Closed witness for `send_new_chat_deferred`. -/
theorem send_new_chat_deferred_witness :
    ((emptyChat (some "f1")).isLoading = false ∧
     ("hello" : String) ≠ "" ∧
     (emptyChat (some "f1")).file_id = some "f1" ∧
     (emptyChat (some "f1")).currentSessionId = none ∧
     objLookup (emptyChat (some "f1")).sessions (plainResult "S1").session_id = none) ∧
    (sendPrepare (emptyChat (some "f1")) "hello" = emptyChat (some "f1") ∧
     (sendMessage (emptyChat (some "f1")) "hello" (QueryOutcome.ok (plainResult "S1"))).1.sessions =
       objInsert (emptyChat (some "f1")).sessions (plainResult "S1").session_id
         { id := (plainResult "S1").session_id, file_id := some "f1",
           title := truncTitle "hello",
           messages := [Message.user "hello", Message.ai (plainResult "S1")] } ∧
     (sendMessage (emptyChat (some "f1")) "hello"
         (QueryOutcome.ok (plainResult "S1"))).1.currentSessionId =
       some (plainResult "S1").session_id) :=
  ⟨⟨by decide, by decide, by decide, by decide, by decide⟩,
   send_new_chat_deferred (emptyChat (some "f1")) "hello" (plainResult "S1") "f1"
     (by decide) (by decide) (by decide) (by decide) (by decide)⟩

/-- C3: sending with no bound file leaves the whole chat state (sessions and
current session id) unchanged, does not contact the backend, and appends the
user bubble plus exactly one error display entry — the no-file notice. -/
theorem send_no_file_rejected (st : ChatState) (q : String) (outcome : QueryOutcome)
    (hld : st.isLoading = false) (hq : q ≠ "") (hf : st.file_id = none) :
    sendMessage st q outcome =
      (st, [DisplayEntry.userMsg q, DisplayEntry.errorMsg noFileMsg], false) ∧
    ((sendMessage st q outcome).2.1.filter DisplayEntry.isError).length = 1 := by
  have h : sendMessage st q outcome =
      (st, [DisplayEntry.userMsg q, DisplayEntry.errorMsg noFileMsg], false) := by
    simp [sendMessage, hld, hq, hf]
  refine ⟨h, ?_⟩
  rw [h]
  rfl

/-- Closed witness for `send_no_file_rejected`. -/
theorem send_no_file_rejected_witness :
    ((emptyChat none).isLoading = false ∧ ("hi" : String) ≠ "" ∧
     (emptyChat none).file_id = none) ∧
    (sendMessage (emptyChat none) "hi" (QueryOutcome.err "boom") =
      (emptyChat none, [DisplayEntry.userMsg "hi", DisplayEntry.errorMsg noFileMsg], false) ∧
     ((sendMessage (emptyChat none) "hi" (QueryOutcome.err "boom")).2.1.filter
        DisplayEntry.isError).length = 1) :=
  ⟨⟨by decide, by decide, by decide⟩,
   send_no_file_rejected (emptyChat none) "hi" (QueryOutcome.err "boom")
     (by decide) (by decide) (by decide)⟩

/-- C9: the session record created by a successful brand-new-chat send is
titled with the truncated question: unchanged for questions of at most 30
characters, and the first 30 characters followed by the ellipsis marker
otherwise. -/
theorem session_title_truncation (st : ChatState) (q : String) (r : QueryResult) (fid : String)
    (hld : st.isLoading = false) (hq : q ≠ "") (hf : st.file_id = some fid)
    (hcur : st.currentSessionId = none)
    (hfresh : objLookup st.sessions r.session_id = none) :
    ((objLookup (sendMessage st q (QueryOutcome.ok r)).1.sessions r.session_id).map
        Session.title = some (truncTitle q)) ∧
    (q.length ≤ 30 → truncTitle q = q) ∧
    (30 < q.length → truncTitle q = String.mk (q.data.take 30) ++ "...") := by
  refine ⟨?_, ?_, ?_⟩
  · rw [sendMessage_new_chat st q r fid hld hq hf hcur hfresh]
    simp [objLookup_objInsert_self]
  · intro h
    have hnot : ¬ 30 < q.length := Nat.not_lt.mpr h
    have htake : q.data.take 30 = q.data := List.take_of_length_le h
    simp [truncTitle, hnot, htake, String.append_empty]
  · intro h
    simp [truncTitle, h]

/-- Closed witness for `session_title_truncation`: a 40-character question
is truncated to its first 30 characters plus the marker, a 20-character
question is kept whole. -/
theorem session_title_truncation_witness :
    ((objLookup (sendMessage (emptyChat (some "f1"))
        "0123456789012345678901234567890123456789"
        (QueryOutcome.ok (plainResult "S1"))).1.sessions
        (plainResult "S1").session_id).map Session.title =
      some (truncTitle "0123456789012345678901234567890123456789")) ∧
    truncTitle "0123456789012345678901234567890123456789" =
      "012345678901234567890123456789..." ∧
    truncTitle "01234567890123456789" = "01234567890123456789" :=
  ⟨(session_title_truncation (emptyChat (some "f1"))
      "0123456789012345678901234567890123456789" (plainResult "S1") "f1"
      (by decide) (by decide) (by decide) (by decide) (by decide)).1,
   by decide, by decide⟩

/-- C1 counterexample: the claim as stated is false on the code.  With
current session `A` present and bound, a successful response carrying a
different server session id `B` leaves the optimistic user message in
session `A` while the lone AI message is appended to the newly created
session `B` — the turn is split across two sessions, and session `B`
contains an AI message with no preceding user message. -/
theorem send_split_session_cex :
    (objLookup (sendMessage continuingChat "hello"
        (QueryOutcome.ok (plainResult "B"))).1.sessions "B").map Session.messages =
      some [Message.ai (plainResult "B")] ∧
    (objLookup (sendMessage continuingChat "hello"
        (QueryOutcome.ok (plainResult "B"))).1.sessions "A").map Session.messages =
      some [Message.user "hello"] ∧
    (sendMessage continuingChat "hello" (QueryOutcome.ok (plainResult "B"))).2.2 = true := by
  decide

/-- C1 (amended): for every successful send in which the server echoes the
request's session id — returning the same id when one was sent, and an id
not already present in the local map when none was sent — the turn's user
message and its single AI message land together, consecutively, in that one
session; every other session is untouched; and that session becomes
current.  (Without the echo assumption the claim fails, see
`send_split_session_cex`.) -/
theorem send_turn_pairing (st : ChatState) (q : String) (r : QueryResult) (fid : String)
    (hld : st.isLoading = false) (hq : q ≠ "") (hf : st.file_id = some fid)
    (hecho : ∀ cid, st.currentSessionId = some cid → r.session_id = cid)
    (hfresh : st.currentSessionId = none → objLookup st.sessions r.session_id = none) :
    (∃ s', objLookup (sendMessage st q (QueryOutcome.ok r)).1.sessions r.session_id = some s' ∧
       s'.messages =
         (match objLookup st.sessions r.session_id with
          | some s => s.messages
          | none => []) ++ [Message.user q, Message.ai r]) ∧
    (∀ sid, sid ≠ r.session_id →
       objLookup (sendMessage st q (QueryOutcome.ok r)).1.sessions sid =
         objLookup st.sessions sid) ∧
    (sendMessage st q (QueryOutcome.ok r)).1.currentSessionId = some r.session_id := by
  rw [sendMessage_ok st q r fid hld hq hf]
  cases hcur : st.currentSessionId with
  | none =>
    have hfr := hfresh hcur
    rw [sendPrepare_new_chat st q hcur]
    have hfinal : (sendResolve st q r).sessions =
        objInsert st.sessions r.session_id
          { id := r.session_id, file_id := st.file_id, title := truncTitle q,
            messages := [Message.user q, Message.ai r] } := by
      simp only [sendResolve, hfr, hcur]
      rw [objModify_objInsert]
      rfl
    refine ⟨⟨{ id := r.session_id, file_id := st.file_id, title := truncTitle q,
               messages := [Message.user q, Message.ai r] }, ?_, ?_⟩, ?_, rfl⟩
    · rw [hfinal]
      exact objLookup_objInsert_self _ _ _
    · simp [hfr]
    · intro sid hsid
      rw [hfinal]
      exact objLookup_objInsert_ne _ _ _ _ hsid
  | some cid =>
    have hnid : r.session_id = cid := hecho cid hcur
    subst hnid
    cases hlook : objLookup st.sessions r.session_id with
    | some s =>
      have hprep : (sendPrepare st q).sessions =
          objModify st.sessions r.session_id (pushUserMsg q) := by
        simp only [sendPrepare, hcur, hlook]
      have hlook2 : objLookup (sendPrepare st q).sessions r.session_id =
          some (pushUserMsg q s) := by
        rw [hprep]
        show objLookup (objModify st.sessions r.session_id (pushUserMsg q)) r.session_id = _
        rw [objLookup_objModify_self, hlook]
        rfl
      have hfinal : (sendResolve (sendPrepare st q) q r).sessions =
          objModify (sendPrepare st q).sessions r.session_id (pushAIMsg r) := by
        simp only [sendResolve, hlook2]
      refine ⟨⟨pushAIMsg r (pushUserMsg q s), ?_, ?_⟩, ?_, rfl⟩
      · rw [hfinal, objLookup_objModify_self, hlook2]
        rfl
      · simp [pushUserMsg, pushAIMsg, hlook]
      · intro sid hsid
        rw [hfinal, objLookup_objModify_ne _ _ _ _ hsid, hprep]
        exact objLookup_objModify_ne _ _ _ _ hsid
    | none =>
      have hprep : (sendPrepare st q).sessions =
          objInsert st.sessions r.session_id
            (pushUserMsg q ⟨r.session_id, st.file_id, q, []⟩) := by
        simp only [sendPrepare, hcur, hlook]
        rw [objModify_objInsert]
      have hlook2 : objLookup (sendPrepare st q).sessions r.session_id =
          some (pushUserMsg q ⟨r.session_id, st.file_id, q, []⟩) := by
        rw [hprep]
        exact objLookup_objInsert_self _ _ _
      have hfinal : (sendResolve (sendPrepare st q) q r).sessions =
          objModify (sendPrepare st q).sessions r.session_id (pushAIMsg r) := by
        simp only [sendResolve, hlook2]
      refine ⟨⟨pushAIMsg r (pushUserMsg q ⟨r.session_id, st.file_id, q, []⟩), ?_, ?_⟩, ?_, rfl⟩
      · rw [hfinal, objLookup_objModify_self, hlook2]
        rfl
      · simp [pushUserMsg, pushAIMsg, hlook]
      · intro sid hsid
        rw [hfinal, objLookup_objModify_ne _ _ _ _ hsid, hprep]
        exact objLookup_objInsert_ne _ _ _ _ hsid

/-- Closed witness for `send_turn_pairing`: continuing session `A`, server
echoes `A`; the turn's two messages are appended to `A`, other ids are
untouched, `A` stays current. -/
theorem send_turn_pairing_witness :
    (objLookup (sendMessage continuingChat "hello"
        (QueryOutcome.ok (plainResult "A"))).1.sessions
        (plainResult "A").session_id).map Session.messages =
      some [Message.user "hello", Message.ai (plainResult "A")] ∧
    objLookup (sendMessage continuingChat "hello"
        (QueryOutcome.ok (plainResult "A"))).1.sessions "C" =
      objLookup continuingChat.sessions "C" ∧
    (sendMessage continuingChat "hello"
        (QueryOutcome.ok (plainResult "A"))).1.currentSessionId =
      some (plainResult "A").session_id := by
  obtain ⟨⟨s', hs, hm⟩, hframe, hcur⟩ :=
    send_turn_pairing continuingChat "hello" (plainResult "A") "f1"
      (by decide) (by decide) (by decide)
      (fun cid h => Option.some.inj h) (fun h => Option.noConfusion h)
  refine ⟨?_, hframe "C" (by decide), hcur⟩
  rw [hs, Option.map_some', hm]
  decide

/-- C4: a result with no rows, or with a single sentinel row whose first
column is named `error`, is classified as having no data rows: no KPI card,
no table and no chart is produced, whatever `chart_type` says, and the AI
bubble reduces to badge, escaped explanation and optional SQL viewer. -/
theorem classifier_text_only (r : QueryResult)
    (h : r.rows = [] ∨ (r.rows.length = 1 ∧ r.columns.head? = some "error")) :
    hasDataRows r = false ∧ isKPI r = false ∧ hasTable r = false ∧ hasChart r = false ∧
    kpiHtml r = "" ∧ miniTableHtml r = "" ∧
    (∀ msgId chartId, aiBubbleHtml r msgId chartId =
      "<div class=\"msg-bubble\" id=\"" ++ msgId ++ "\">" ++ badgeHtml r ++
        explanationHtml r ++ sqlViewerHtml r msgId ++ "</div>") := by
  have hdr : hasDataRows r = false := by
    rcases h with h | ⟨h1, h2⟩
    · simp [hasDataRows, h]
    · simp [hasDataRows, isErrorRow, h1, h2]
  have hk : isKPI r = false := by simp [isKPI, hdr]
  have ht : hasTable r = false := by simp [hasTable, hdr]
  have hc : hasChart r = false := by simp [hasChart, hdr]
  have hkpi : kpiHtml r = "" := by simp [kpiHtml, kpiCards, hk, String.join]
  have htab : miniTableHtml r = "" := by simp [miniTableHtml, ht]
  refine ⟨hdr, hk, ht, hc, hkpi, htab, ?_⟩
  intro msgId chartId
  simp [aiBubbleHtml, hkpi, htab, chartContainerHtml, hc, String.append_empty]

/-- Closed witness for `classifier_text_only`: the sentinel error row with
`chart_type = "bar"` renders text-only. -/
theorem classifier_text_only_witness :
    (errorRowResult.rows.length = 1 ∧ errorRowResult.columns.head? = some "error" ∧
     errorRowResult.chart_type = some "bar") ∧
    hasDataRows errorRowResult = false ∧ hasChart errorRowResult = false ∧
    kpiHtml errorRowResult = "" ∧ miniTableHtml errorRowResult = "" ∧
    aiBubbleHtml errorRowResult "m1" "c1" =
      "<div class=\"msg-bubble\" id=\"m1\">" ++ badgeHtml errorRowResult ++
        explanationHtml errorRowResult ++ sqlViewerHtml errorRowResult "m1" ++ "</div>" := by
  obtain ⟨hdr, hk, ht, hc, hkpi, htab, hbub⟩ :=
    classifier_text_only errorRowResult (Or.inr ⟨by decide, by decide⟩)
  exact ⟨⟨by decide, by decide, by decide⟩, hdr, hc, hkpi, htab, hbub "m1" "c1"⟩

/-- C7: in KPI mode one card is rendered per key of the first row, and the
value formatting follows the code: an integral number gets grouping
separators (1200 renders as "1,200"), a number with a fractional part gets
exactly two decimals (1234.5 renders as "1234.50"), a non-number renders
as-is. -/
theorem kpi_render_spec (r : QueryResult) (row0 : Row) (rest : List Row)
    (hk : isKPI r = true) (hr : r.rows = row0 :: rest) :
    kpiCards r = row0.map (fun kv => kpiCardHtml kv.1 (fmtKpiVal kv.2)) ∧
    (kpiCards r).length = row0.length ∧
    kpiHtml r = String.join (row0.map (fun kv => kpiCardHtml kv.1 (fmtKpiVal kv.2))) ∧
    (∀ q : ℚ, q.den = 1 → fmtKpiVal (JsVal.num q) = jsToLocaleString q.num) ∧
    (∀ q : ℚ, q.den ≠ 1 → fmtKpiVal (JsVal.num q) = jsToFixed2 q) ∧
    fmtKpiVal (JsVal.num (1200 : ℚ)) = "1,200" ∧
    fmtKpiVal (JsVal.num (mkRat 2469 2)) = "1234.50" ∧
    (∀ s, fmtKpiVal (JsVal.str s) = s) := by
  have hcards : kpiCards r = row0.map (fun kv => kpiCardHtml kv.1 (fmtKpiVal kv.2)) := by
    simp [kpiCards, hk, hr]
  refine ⟨hcards, by simp [hcards], by simp [kpiHtml, hcards], ?_, ?_,
    by decide, by decide, fun s => rfl⟩
  · intro q hq
    simp [fmtKpiVal, hq]
  · intro q hq
    simp [fmtKpiVal, hq]

/-- Closed witness for `kpi_render_spec`: the fixture KPI result renders one
card per key of its first row and formats 1200 and 1234.5 as specified. -/
theorem kpi_render_spec_witness :
    isKPI kpiResult = true ∧
    (kpiCards kpiResult).length = 2 ∧
    fmtKpiVal (JsVal.num (1200 : ℚ)) = "1,200" ∧
    fmtKpiVal (JsVal.num (mkRat 2469 2)) = "1234.50" := by
  obtain ⟨_, hlen, _, _, _, h1200, h1234, _⟩ :=
    kpi_render_spec kpiResult
      [("revenue", JsVal.num (mkRat 2469 2)), ("count", JsVal.num (1200 : ℚ))] []
      (by decide) (by decide)
  exact ⟨by decide, hlen.trans (by decide), h1200, h1234⟩

/-- C8: in table mode exactly `min(rows.length, 10)` row entries are
rendered inside the grid; with more than 10 rows a literal
`+N more rows` suffix with `N = rows.length − 10` follows, and with at most
10 rows no suffix is rendered. -/
theorem table_preview_spec (r : QueryResult) (ht : hasTable r = true) :
    miniTableHtml r = tableWrapperHtml (tableHeaderHtml r.columns)
      (tableRowsHtml r.columns r.rows) (tableSuffixHtml r.rows) ∧
    (tableRowsHtml r.columns r.rows).length = min r.rows.length 10 ∧
    (10 < r.rows.length → tableSuffixHtml r.rows =
      "<div style=\"padding:6px 10px;font-size:0.75rem;color:var(--text-mid);font-weight:700;background:hsl(50,20%,93%);\">+" ++
        natToString (r.rows.length - 10) ++ " more rows</div>") ∧
    (r.rows.length ≤ 10 → tableSuffixHtml r.rows = "") := by
  have h1 := ht
  rw [hasTable, Bool.and_eq_true] at h1
  have h2 := h1.1
  rw [hasDataRows, Bool.and_eq_true] at h2
  have hpos : 0 < r.rows.length := of_decide_eq_true h2.1
  refine ⟨by simp [miniTableHtml, ht, hpos], ?_, ?_, ?_⟩
  · simp [tableRowsHtml, List.length_take, Nat.min_comm]
  · intro h
    simp [tableSuffixHtml, h]
  · intro h
    simp [tableSuffixHtml, Nat.not_lt.mpr h]

/-- Closed witness for `table_preview_spec`: 15 rows render as exactly 10
row entries plus the literal suffix `+5 more rows`. -/
theorem table_preview_spec_witness :
    hasTable tableResult15 = true ∧
    (tableRowsHtml tableResult15.columns tableResult15.rows).length = 10 ∧
    tableSuffixHtml tableResult15.rows =
      "<div style=\"padding:6px 10px;font-size:0.75rem;color:var(--text-mid);font-weight:700;background:hsl(50,20%,93%);\">+5 more rows</div>" := by
  obtain ⟨_, hlen, hsuf, _⟩ := table_preview_spec tableResult15 (by decide)
  exact ⟨by decide, hlen.trans (by decide), (hsuf (by decide)).trans (by decide)⟩

-- ── Helper lemmas for _escapeHtml ──────────────────────────────────────────

theorem replaceChar_cons (c : Char) (rep : List Char) (x : Char) (xs : List Char) :
    replaceChar c rep (x :: xs) = (if x = c then rep else [x]) ++ replaceChar c rep xs := rfl

theorem replaceChar_append (c : Char) (rep : List Char) (l1 l2 : List Char) :
    replaceChar c rep (l1 ++ l2) = replaceChar c rep l1 ++ replaceChar c rep l2 := by
  induction l1 with
  | nil => rfl
  | cons x xs ih => simp [replaceChar, ih]

theorem escapeChain_eq (l : List Char) :
    replaceChar '"' ("&quot;".data)
      (replaceChar '>' ("&gt;".data)
        (replaceChar '<' ("&lt;".data)
          (replaceChar '&' ("&amp;".data) l))) = (l.map entitySubst).flatten := by
  induction l with
  | nil => rfl
  | cons x xs ih =>
    rw [replaceChar_cons, replaceChar_append, replaceChar_append, replaceChar_append, ih]
    rw [List.map_cons, List.flatten_cons]
    congr 1
    by_cases h1 : x = '&'
    · subst h1
      rfl
    · by_cases h2 : x = '<'
      · subst h2
        rfl
      · by_cases h3 : x = '>'
        · subst h3
          rfl
        · by_cases h4 : x = '"'
          · subst h4
            rfl
          · simp [replaceChar, entitySubst, h1, h2, h3, h4]

theorem entitySubst_no_special (c : Char) :
    (entitySubst c).all (fun y => !(y == '<') && !(y == '>') && !(y == '"')) = true := by
  by_cases h1 : c = '&'
  · subst h1
    decide
  · by_cases h2 : c = '<'
    · subst h2
      decide
    · by_cases h3 : c = '>'
      · subst h3
        decide
      · by_cases h4 : c = '"'
        · subst h4
          decide
        · simp [entitySubst, h1, h2, h3, h4]

/-- C10: `_escapeHtml` yields the empty string on `null`/`undefined`, its
output never contains a raw `<`, `>` or `"`, and the chained replacements
amount to substituting each special character (including every `&`) by its
HTML entity.  The chat panel's embedded renderers (`userBubbleHtml`,
`explanationHtml`, `sqlViewerHtml`, `sessionOptionHtml`) all route the user
question, AI explanation, SQL string and session title through this
function. -/
theorem escapeHtml_no_specials (v : Option String) :
    (escapeHtml v).data.all (fun y => !(y == '<') && !(y == '>') && !(y == '"')) = true ∧
    escapeHtml none = "" ∧
    escapeHtml v = String.mk (((v.getD "").data.map entitySubst).flatten) := by
  have hchar : escapeHtml v = String.mk (((v.getD "").data.map entitySubst).flatten) := by
    simp only [escapeHtml]
    exact congrArg String.mk (escapeChain_eq _)
  refine ⟨?_, rfl, hchar⟩
  rw [hchar]
  show (((v.getD "").data.map entitySubst).flatten).all _ = true
  rw [List.all_eq_true]
  intro y hy
  rw [List.mem_flatten] at hy
  obtain ⟨blk, hblk, hyblk⟩ := hy
  rw [List.mem_map] at hblk
  obtain ⟨c, _, rfl⟩ := hblk
  have hall := entitySubst_no_special c
  rw [List.all_eq_true] at hall
  exact hall y hyblk

/-- C6 counterexample: the claim as stated is false for the `get` helper:
an HTTP 422 `GET` response whose body carries a (truthy) explanation is
still thrown, not returned as a valid result. -/
theorem get_422_explanation_thrown_cex :
    truthyStr degradedBody.explanation = true ∧
    get 422 degradedBody = FetchResult.thrown "HTTP 422" := by
  decide

/-- C6 (amended): for `post`, a non-success status throws with
`detail || error || 'HTTP ' + status` except HTTP 422 with a truthy
explanation, which is returned as a valid result; for `get`, every
non-success status throws with `detail || 'HTTP ' + status` — the 422
exception applies only to the POST helper (the `/query` path). -/
theorem gateway_error_convention (status : Nat) (json : JsonBody) :
    (status = 422 → truthyStr json.explanation = true → post status json = FetchResult.ok json) ∧
    (resOk status = false → (status == 422 && truthyStr json.explanation) = false →
      post status json =
        FetchResult.thrown (jsOr json.detail (jsOr json.error ("HTTP " ++ natToString status)))) ∧
    (resOk status = false →
      get status json = FetchResult.thrown (jsOr json.detail ("HTTP " ++ natToString status))) := by
  refine ⟨?_, ?_, ?_⟩
  · intro h1 h2
    simp [post, h1, h2]
  · intro h1 h2
    simp [post, h1, h2]
  · intro h1
    simp [get, h1]

/-- Closed witness for `gateway_error_convention`. -/
theorem gateway_error_convention_witness :
    post 422 degradedBody = FetchResult.ok degradedBody ∧
    post 500 failedBody = FetchResult.thrown "Table not found" ∧
    get 404 failedBody = FetchResult.thrown "Table not found" := by
  obtain ⟨h1, _, _⟩ := gateway_error_convention 422 degradedBody
  obtain ⟨_, h2, _⟩ := gateway_error_convention 500 failedBody
  obtain ⟨_, _, h3⟩ := gateway_error_convention 404 failedBody
  exact ⟨h1 rfl (by decide), (h2 (by decide) (by decide)).trans (by decide),
    (h3 (by decide)).trans (by decide)⟩

-- ── Helper lemmas for setFileId ────────────────────────────────────────────

theorem objInsert_append_fresh {α : Type} (m : List (String × α)) (k : String) (v : α)
    (h : ∀ p ∈ m, p.1 ≠ k) : objInsert m k v = m ++ [(k, v)] := by
  induction m with
  | nil => rfl
  | cons p rest ih =>
    obtain ⟨k', v'⟩ := p
    have hk : k' ≠ k := h (k', v') (by simp)
    have hrest : ∀ p ∈ rest, p.1 ≠ k := fun p hp => h p (by simp [hp])
    simp [objInsert, hk, ih hrest]

theorem foldl_objInsert_eq (l : List Session) (acc : List (String × Session))
    (hnd : (l.map Session.id).Nodup)
    (hdisj : ∀ s ∈ l, ∀ p ∈ acc, p.1 ≠ s.id) :
    l.foldl (fun m s => objInsert m s.id s) acc = acc ++ l.map (fun s => (s.id, s)) := by
  induction l generalizing acc with
  | nil => simp
  | cons a l' ih =>
    have hnd' : (l'.map Session.id).Nodup := (List.nodup_cons.mp (by simpa using hnd)).2
    have hhead : a.id ∉ l'.map Session.id := (List.nodup_cons.mp (by simpa using hnd)).1
    have hins : objInsert acc a.id a = acc ++ [(a.id, a)] :=
      objInsert_append_fresh acc a.id a (fun p hp => hdisj a (by simp) p hp)
    have hdisj' : ∀ s ∈ l', ∀ p ∈ acc ++ [(a.id, a)], p.1 ≠ s.id := by
      intro s hs p hp
      rcases List.mem_append.mp hp with hp | hp
      · exact hdisj s (by simp [hs]) p hp
      · have hpa : p = (a.id, a) := by simpa using hp
        subst hpa
        exact fun hEq => hhead (List.mem_map.mpr ⟨s, hs, hEq.symm⟩)
    rw [List.foldl_cons, hins, ih (acc ++ [(a.id, a)]) hnd' hdisj']
    simp

theorem getLast?_pairwise_le (ts : Session → Nat) :
    ∀ (l : List Session), l.Pairwise (fun a b => ts a ≤ ts b) →
      ∀ x, l.getLast? = some x → ∀ y ∈ l, ts y ≤ ts x := by
  intro l
  induction l with
  | nil =>
    intro _ x hx
    simp at hx
  | cons a l' ih =>
    intro hp x hx y hy
    obtain ⟨ha, hp'⟩ := List.pairwise_cons.mp hp
    cases l' with
    | nil =>
      have hxa : x = a := by simpa using hx.symm
      have hya : y = a := by simpa using hy
      subst hxa
      subst hya
      exact Nat.le_refl _
    | cons b l'' =>
      have hx' : (b :: l'').getLast? = some x := by
        simpa [List.getLast?_cons_cons] using hx
      rcases List.mem_cons.mp hy with rfl | hy'
      · exact ha x (List.mem_of_mem_getLast? hx')
      · exact ih hp' x hx' y hy'

-- ── C5 ─────────────────────────────────────────────────────────────────────

/-- C5: `setFileId` replaces the entire local session mapping with the
fetched list keyed by id — independently of whatever was there before — and
selects as current the most recently created fetched session whose
`file_id` matches the bound file (the fetch returns sessions in creation
order, expressed here by a timestamp function `ts` along which the list is
sorted), or `null` when none matches. -/
theorem setFileId_spec (st : ChatState) (fid : String) (l : List Session)
    (ts : Session → Nat)
    (hnd : (l.map Session.id).Nodup)
    (hsort : l.Pairwise (fun a b => ts a ≤ ts b)) :
    (setFileId st fid (FetchOutcome.ok l)).sessions = l.map (fun s => (s.id, s)) ∧
    objValues (setFileId st fid (FetchOutcome.ok l)).sessions = l ∧
    (setFileId st fid (FetchOutcome.ok l)).file_id = some fid ∧
    (∀ st₂ : ChatState,
        (setFileId st₂ fid (FetchOutcome.ok l)).sessions =
          (setFileId st fid (FetchOutcome.ok l)).sessions ∧
        (setFileId st₂ fid (FetchOutcome.ok l)).currentSessionId =
          (setFileId st fid (FetchOutcome.ok l)).currentSessionId) ∧
    ((∀ s ∈ l, s.file_id ≠ some fid) →
        (setFileId st fid (FetchOutcome.ok l)).currentSessionId = none) ∧
    (∀ s₀ ∈ l, s₀.file_id = some fid →
        ∃ chosen ∈ l,
          (setFileId st fid (FetchOutcome.ok l)).currentSessionId = some chosen.id ∧
          chosen.file_id = some fid ∧
          ∀ s ∈ l, s.file_id = some fid → ts s ≤ ts chosen) := by
  have hfold := foldl_objInsert_eq l [] hnd (by simp)
  have hsess : (setFileId st fid (FetchOutcome.ok l)).sessions =
      l.map (fun s => (s.id, s)) := by
    simp only [setFileId]
    rw [hfold]
    simp
  have hidcomp : ((fun p : String × Session => p.2) ∘ fun s : Session => (s.id, s)) = id := rfl
  have hcur : (setFileId st fid (FetchOutcome.ok l)).currentSessionId =
      ((l.filter (fun s => s.file_id == some fid)).getLast?).map (fun s => s.id) := by
    simp only [setFileId]
    rw [hfold]
    simp only [List.nil_append, objValues, List.map_map, hidcomp, List.map_id]
  have hvals : objValues (setFileId st fid (FetchOutcome.ok l)).sessions = l := by
    rw [hsess]
    simp only [objValues, List.map_map, hidcomp, List.map_id]
  refine ⟨hsess, hvals, rfl, fun st₂ => ⟨rfl, rfl⟩, ?_, ?_⟩
  · intro hnone
    have hfe : l.filter (fun s => s.file_id == some fid) = [] := by
      rw [List.filter_eq_nil_iff]
      intro a ha
      simpa using hnone a ha
    rw [hcur, hfe]
    rfl
  · intro s₀ hs₀ hmatch
    have hmem : s₀ ∈ l.filter (fun s => s.file_id == some fid) :=
      List.mem_filter.mpr ⟨hs₀, by simp [hmatch]⟩
    have hne : l.filter (fun s => s.file_id == some fid) ≠ [] := by
      intro hemp
      rw [hemp] at hmem
      simp at hmem
    obtain ⟨x, hx⟩ : ∃ x, (l.filter (fun s => s.file_id == some fid)).getLast? = some x := by
      cases hgl : (l.filter (fun s => s.file_id == some fid)).getLast? with
      | none => exact absurd (List.getLast?_eq_none_iff.mp hgl) hne
      | some x => exact ⟨x, rfl⟩
    have hxmem : x ∈ l.filter (fun s => s.file_id == some fid) :=
      List.mem_of_mem_getLast? hx
    have hxl : x ∈ l := (List.mem_filter.mp hxmem).1
    have hxmatch : x.file_id = some fid := by
      simpa using (List.mem_filter.mp hxmem).2
    refine ⟨x, hxl, ?_, hxmatch, ?_⟩
    · rw [hcur, hx]
      rfl
    · intro s hs hsm
      have hpf : (l.filter (fun s => s.file_id == some fid)).Pairwise
          (fun a b => ts a ≤ ts b) :=
        List.Pairwise.sublist (List.filter_sublist l) hsort
      exact getLast?_pairwise_le ts _ hpf x hx s (List.mem_filter.mpr ⟨hs, by simp [hsm]⟩)

/-- Closed witness for `setFileId_spec`: three fetched sessions for two
files, sorted by a growing timestamp; binding file `f1` keeps all three in
the mapping and selects session `C`, the most recent one for `f1`. -/
theorem setFileId_spec_witness :
    ((fetchedSessions.map Session.id).Nodup ∧
     fetchedSessions.Pairwise (fun a b => a.title.length ≤ b.title.length)) ∧
    (setFileId (emptyChat none) "f1" (FetchOutcome.ok fetchedSessions)).sessions =
      fetchedSessions.map (fun s => (s.id, s)) ∧
    objValues (setFileId (emptyChat none) "f1" (FetchOutcome.ok fetchedSessions)).sessions =
      fetchedSessions ∧
    (setFileId (emptyChat none) "f1" (FetchOutcome.ok fetchedSessions)).currentSessionId =
      some "C" := by
  obtain ⟨h1, h2, _, _, _, _⟩ :=
    setFileId_spec (emptyChat none) "f1" fetchedSessions (fun s => s.title.length)
      (by decide) (by decide)
  exact ⟨⟨by decide, by decide⟩, h1, h2, by decide⟩

end DataWeb
